import Mathlib

/-!
Shallow embedding of the vikit-sdk slice: the video reencoding handler
(`src/vikit/video/building/handlers/video_reencoding_handler.py`), the
Google Cloud Storage gateway (`src/vikit/gateways/gcs_cloud_storage_gateway.py`)
and the telemetry initialiser (`src/vikit/common/telemetry.py`).

External collaborators (the ffmpeg transcoder, the GCS client, the
OpenTelemetry SDK) are modelled as explicit parameters / environment records
whose outcomes are inputs to the embedded functions, so that the embedded
functions mirror exactly the control flow of the Python source.
-/

namespace Vikit

/-- Metadata attached to a video artifact. The handler code only touches
`is_reencoded`; `extra` stands for the remaining accumulated facts so that
"metadata unchanged" is expressible as equality of the whole record. -/
structure Metadata where
  is_reencoded : Bool
  extra : List (String × String)
  deriving DecidableEq, Repr

/-- Build settings are opaque configuration read by handlers; the embedded
code never inspects them, matching the Python source where they are only
forwarded to `get_file_name_by_state`. -/
structure BuildSettings where
  tag : String
  deriving DecidableEq, Repr

/-- The mutable video artifact state, as read and written by
`VideoBuildingHandlerReencoder._execute_logic_async`:
`video.id`, `video.media_url` (backed by `_media_url`),
`video._needs_reencoding`, `video.metadata.is_reencoded`,
`video.build_settings`. -/
structure Video where
  id : String
  media_url : String
  needs_reencoding : Bool
  metadata : Metadata
  build_settings : BuildSettings
  deriving DecidableEq, Repr

/-- A transcoder failure; the collaborator contract is
`reencode(sourceReference, targetName) -> newReference`, failing with
`TranscodeError{reason}`. We carry the reason string. -/
abbrev TranscodeError := String

/-- The transcoder collaborator: given (source reference, target name) it
either produces a new reference or fails. The concrete ffmpeg wrapper is an
external collaborator, so it is a parameter of the handler. -/
abbrev Transcoder := String → String → Except TranscodeError String

/-- Modelled from the spec: `VideoBuildingHandler._execute_logic_async`
(the base class, not under the visible sources) performs pre/post
bookkeeping only — trace span keyed by artifact id, entry/exit logging —
and does not mutate the artifact. Hence it is the identity on the
artifact state. -/
def base_execute_logic_async (video : Video) : Video := video

/-- Modelled from the spec: `Video.get_file_name_by_state` (not under the
visible sources) computes the target output name from the artifact's
current lifecycle state and its build settings. It is modelled as an
opaque parameter reading the artifact (which carries its build settings). -/
abbrev FileNameByState := Video → String

/-- The observable result of one run of the reencoding handler over one
artifact: the artifact's state after the run (Python mutates the object in
place, so the state is observable even when the method raises), the list
of (source, target) argument pairs passed to the external transcoder, and
the outcome — `Except.ok kwargs` when the method returns the pair
`(video, kwargs)`, `Except.error e` when it raises `e`. -/
structure RunResult (K : Type) where
  video : Video
  calls : List (String × String)
  outcome : Except TranscodeError K
  deriving Repr

/-- Embedding of `VideoBuildingHandlerReencoder._execute_logic_async`.

Source control flow: call the base logic (twice, both calls are
bookkeeping-only); if `video._needs_reencoding`, assign
`video._media_url = reencode_video(video.media_url,
video.get_file_name_by_state(build_settings=video.build_settings))` —
if the call raises, the assignment never happens and the exception
propagates — else return `(video, kwargs)` at once; after a successful
reencode, set `video.metadata.is_reencoded = True` and return
`(video, kwargs)`. -/
def execute_logic_async {K : Type} (reencode_video : Transcoder)
    (get_file_name_by_state : FileNameByState)
    (video : Video) (kwargs : K) : RunResult K :=
  let video := base_execute_logic_async video
  let video := base_execute_logic_async video
  if video.needs_reencoding then
    let src := video.media_url
    let tgt := get_file_name_by_state video
    match reencode_video src tgt with
    | Except.error e => ⟨video, [(src, tgt)], Except.error e⟩
    | Except.ok newRef =>
        ⟨{ video with
            media_url := newRef,
            metadata := { video.metadata with is_reencoded := true } },
          [(src, tgt)], Except.ok kwargs⟩
  else
    ⟨video, [], Except.ok kwargs⟩

/-- Embedding of `VideoBuildingHandlerReencoder._execute_logic`, the
synchronous entry point. Its entire body is `pass`, so it returns Python's
`None` for every input: modelled as `Option (Video × K)` always `none`. -/
def execute_logic {K : Type} (_video : Video) (_kwargs : K) :
    Option (Video × K) :=
  none

/-- Embedding of `VideoBuildingHandlerReencoder.is_supporting_async_mode`. -/
def is_supporting_async_mode : Bool := true

/-- `true` iff `needle` occurs as a contiguous run inside `hay`. -/
def occursIn (needle : List Char) : List Char → Bool
  | [] => needle.isEmpty
  | c :: rest => needle.isPrefixOf (c :: rest) || occursIn needle rest

/-- `true` iff `needle` occurs as a substring of `hay`. Used to state that
an error message names an artifact id. -/
def mentions (needle hay : String) : Bool :=
  occursIn needle.toList hay.toList

/-! ## Google Cloud Storage gateway
Embedding of `GoogleCloudStorageGateway.check_bucket_access` and
`GoogleCloudStorageGateway.upload_image`. The GCS client is the external
collaborator: the outcomes of its individual calls (`get_bucket`,
`bucket.exists`, `blob.upload_from_filename`, `blob.make_public`,
`blob.public_url`) are inputs to the embedded functions, and the embedded
functions reproduce the try/except control flow of the source. -/

/-- The exceptions the gateway code distinguishes:
`FileNotFoundError` (local source file missing), `google.api_core.NotFound`,
`google.api_core.Forbidden`, and any other exception. Each carries its
message. -/
inductive GcsError where
  | fileNotFound (msg : String)
  | notFound (msg : String)
  | forbidden (msg : String)
  | other (msg : String)
  deriving DecidableEq, Repr

/-- The behaviour of the external GCS collaborator during one
`upload_image` call: whether `bucket.exists()` answers true, the outcome of
`blob.upload_from_filename(source_file_path)`, the outcome of
`blob.make_public()`, and the value of `blob.public_url`. -/
structure GcsWorld where
  bucket_exists : Bool
  upload_from_filename : Except GcsError Unit
  make_public : Except GcsError Unit
  public_url : String
  deriving Repr

/-- Embedding of `GoogleCloudStorageGateway.upload_image`.

Source control flow: get the bucket handle; if `not bucket.exists()`,
raise `NotFound(f"Bucket {bucket_name} not found.")`; create the blob,
`blob.upload_from_filename(source_file_path)`, `blob.make_public()`, and
return `blob.public_url`. Every `except` clause logs and re-raises the
caught exception unchanged, so failures propagate as-is and no failure
path returns a value. -/
def upload_image (w : GcsWorld) (bucket_name : String) : Except GcsError String :=
  if !w.bucket_exists then
    Except.error (GcsError.notFound ("Bucket " ++ bucket_name ++ " not found."))
  else
    match w.upload_from_filename with
    | Except.error e => Except.error e
    | Except.ok _ =>
        match w.make_public with
        | Except.error e => Except.error e
        | Except.ok _ => Except.ok w.public_url

/-- Embedding of `GoogleCloudStorageGateway.check_bucket_access`.

Source control flow: `client.get_bucket(self.bucket_name)` inside a `try`;
on success print and return `True`; `except NotFound` prints and returns
`False`; `except Forbidden` prints and returns `False`; any other
exception is not caught and propagates. The outcome of the collaborator
call `get_bucket` is the input. -/
def check_bucket_access (get_bucket : Except GcsError Unit) :
    Except GcsError Bool :=
  match get_bucket with
  | Except.ok _ => Except.ok true
  | Except.error (GcsError.notFound _) => Except.ok false
  | Except.error (GcsError.forbidden _) => Except.ok false
  | Except.error e => Except.error e

/-! ## Telemetry
Embedding of `vikit.common.telemetry`. The class-level state is
`telemetry_initialized : Bool` plus the effect of configuration on the
global OpenTelemetry state, counted by `configure_count` (how many times
the tracer provider and OTLP span exporter have been set up). The
`threading.Lock` makes the check-and-set atomic, which the sequential
model reflects by treating `init_telemetry` as one atomic transition. -/

structure TelemetryState where
  telemetry_initialized : Bool
  configure_count : Nat
  deriving DecidableEq, Repr

/-- Embedding of `telemetry.init_telemetry`.

Source control flow (under `telemetry._lock`): if
`not telemetry.telemetry_initialized`, configure the tracer provider,
the OTLP exporter and the batch span processor (one configuration);
then — still inside the `with` block, unconditionally — set
`telemetry.telemetry_initialized = True`. -/
def init_telemetry (s : TelemetryState) : TelemetryState :=
  let s :=
    if !s.telemetry_initialized then
      { s with configure_count := s.configure_count + 1 }
    else s
  { s with telemetry_initialized := true }

/-- Embedding of `telemetry.get_tracer`: calls `init_telemetry`, then
returns `trace.get_tracer(name if name else "vikit-ai.sdk")`. The result
is the state after the implicit `init_telemetry` call, paired with the
tracer name requested from the collaborator. -/
def get_tracer (s : TelemetryState) (name : Option String) :
    TelemetryState × String :=
  (init_telemetry s, match name with | some n => n | none => "vikit-ai.sdk")

/-! ## Concrete sample inputs used by witnesses and counterexamples -/

/-- Sample metadata with the reencoded flag not yet set. -/
def mdFresh : Metadata := { is_reencoded := false, extra := [("origin", "upstream")] }

/-- Sample build settings. -/
def bsSample : BuildSettings := { tag := "default" }

/-- A sample artifact that needs reencoding. -/
def vTrue : Video :=
  { id := "vid-1", media_url := "local/a.mp4", needs_reencoding := true,
    metadata := mdFresh, build_settings := bsSample }

/-- A sample artifact that does not need reencoding. -/
def vFalse : Video :=
  { id := "vid-2", media_url := "local/b.mp4", needs_reencoding := false,
    metadata := mdFresh, build_settings := bsSample }

/-- A transcoder that always succeeds with a fixed new reference. -/
def okT : Transcoder := fun _ _ => Except.ok "gs://bucket/new.mp4"

/-- A transcoder that always fails with reason `boom`. -/
def failT : Transcoder := fun _ _ => Except.error "boom"

/-- A sample target-name function. -/
def fnT : FileNameByState := fun v => v.id ++ "_reencoded.mp4"

/-- A GCS world in which every collaborator call succeeds. -/
def wOk : GcsWorld :=
  { bucket_exists := true, upload_from_filename := Except.ok (),
    make_public := Except.ok (),
    public_url := "https://storage.googleapis.com/bkt/img.jpg" }

end Vikit

namespace Vikit

/-! ## Helper lemmas: the three possible runs of the reencoding handler -/

/-- Pass-through run: `needsReencoding = false` takes the `else` branch. -/
theorem run_passthrough {K : Type} (reencode : Transcoder)
    (fn : FileNameByState) (v : Video) (k : K)
    (hneed : v.needs_reencoding = false) :
    execute_logic_async reencode fn v k = ⟨v, [], Except.ok k⟩ := by
  simp [execute_logic_async, base_execute_logic_async, hneed]

/-- Failing run: the transcoder raises before the reference assignment. -/
theorem run_error {K : Type} (reencode : Transcoder)
    (fn : FileNameByState) (v : Video) (k : K)
    (hneed : v.needs_reencoding = true) (e : TranscodeError)
    (herr : reencode v.media_url (fn v) = Except.error e) :
    execute_logic_async reencode fn v k =
      ⟨v, [(v.media_url, fn v)], Except.error e⟩ := by
  simp [execute_logic_async, base_execute_logic_async, hneed, herr]

/-- Successful run: reference swapped, `is_reencoded` set. -/
theorem run_ok {K : Type} (reencode : Transcoder)
    (fn : FileNameByState) (v : Video) (k : K)
    (hneed : v.needs_reencoding = true) (newRef : String)
    (hok : reencode v.media_url (fn v) = Except.ok newRef) :
    execute_logic_async reencode fn v k =
      ⟨{ v with
          media_url := newRef,
          metadata := { v.metadata with is_reencoded := true } },
        [(v.media_url, fn v)], Except.ok k⟩ := by
  simp [execute_logic_async, base_execute_logic_async, hneed, hok]

/-! ## Claim theorems -/

/-- C1 (counterexample): on a concrete artifact with `needsReencoding = true`
and a succeeding transcoder, the handler returns successfully but
`needsReencoding` is still `true` afterwards — the code never clears the
flag, contrary to the claim that it ends up `false`. -/
theorem reencode_success_flag_not_cleared :
    (execute_logic_async okT fnT vTrue ()).outcome = Except.ok () ∧
    (execute_logic_async okT fnT vTrue ()).video.needs_reencoding = true :=
  ⟨rfl, rfl⟩

/-- C1 (amended): for every artifact with `needsReencoding = true` and a
transcoder call that succeeds, after the handler's async execution returns,
`metadata.isReencoded` is `true` and `mediaReference` equals the reference
returned by the transcoder; `needsReencoding` is left unchanged (it
remains `true`). -/
theorem reencode_success_state {K : Type} (reencode : Transcoder)
    (fn : FileNameByState) (v : Video) (k : K)
    (hneed : v.needs_reencoding = true) (newRef : String)
    (hok : reencode v.media_url (fn v) = Except.ok newRef) :
    (execute_logic_async reencode fn v k).video.metadata.is_reencoded = true ∧
    (execute_logic_async reencode fn v k).video.media_url = newRef ∧
    (execute_logic_async reencode fn v k).video.needs_reencoding = true ∧
    (execute_logic_async reencode fn v k).outcome = Except.ok k := by
  rw [run_ok reencode fn v k hneed newRef hok]
  exact ⟨rfl, rfl, hneed, rfl⟩

/-- C1 (witness): the amended statement instantiated on a concrete run. -/
theorem reencode_success_state_witness :
    vTrue.needs_reencoding = true ∧
    okT vTrue.media_url (fnT vTrue) = Except.ok "gs://bucket/new.mp4" ∧
    ((execute_logic_async okT fnT vTrue ()).video.metadata.is_reencoded = true ∧
     (execute_logic_async okT fnT vTrue ()).video.media_url = "gs://bucket/new.mp4" ∧
     (execute_logic_async okT fnT vTrue ()).video.needs_reencoding = true ∧
     (execute_logic_async okT fnT vTrue ()).outcome = Except.ok ()) :=
  ⟨rfl, rfl, reencode_success_state okT fnT vTrue () rfl "gs://bucket/new.mp4" rfl⟩

/-- C2: for every artifact with `needsReencoding = true`, if the transcoder
call fails, the handler raises that failure and the artifact's state
(media reference and metadata alike) is exactly what it was before the
call: the mutation is atomic. -/
theorem reencode_failure_atomic {K : Type} (reencode : Transcoder)
    (fn : FileNameByState) (v : Video) (k : K)
    (hneed : v.needs_reencoding = true) (e : TranscodeError)
    (herr : reencode v.media_url (fn v) = Except.error e) :
    (execute_logic_async reencode fn v k).video = v ∧
    (execute_logic_async reencode fn v k).outcome = Except.error e := by
  rw [run_error reencode fn v k hneed e herr]
  exact ⟨rfl, rfl⟩

/-- C2 (witness): the atomicity statement instantiated on a concrete run. -/
theorem reencode_failure_atomic_witness :
    vTrue.needs_reencoding = true ∧
    failT vTrue.media_url (fnT vTrue) = Except.error "boom" ∧
    ((execute_logic_async failT fnT vTrue ()).video = vTrue ∧
     (execute_logic_async failT fnT vTrue ()).outcome = Except.error "boom") :=
  ⟨rfl, rfl, reencode_failure_atomic failT fnT vTrue () rfl "boom" rfl⟩

/-- C3: for every artifact with `needsReencoding = false`, the handler
leaves the artifact (media reference and metadata) unchanged, performs
zero transcoder calls, and returns the `(artifact, context)` pair. -/
theorem passthrough_no_call {K : Type} (reencode : Transcoder)
    (fn : FileNameByState) (v : Video) (k : K)
    (hneed : v.needs_reencoding = false) :
    (execute_logic_async reencode fn v k).video = v ∧
    (execute_logic_async reencode fn v k).calls = [] ∧
    (execute_logic_async reencode fn v k).outcome = Except.ok k := by
  rw [run_passthrough reencode fn v k hneed]
  exact ⟨rfl, rfl, rfl⟩

/-- C3 (witness): the pass-through statement instantiated on a concrete run. -/
theorem passthrough_no_call_witness :
    vFalse.needs_reencoding = false ∧
    ((execute_logic_async okT fnT vFalse ()).video = vFalse ∧
     (execute_logic_async okT fnT vFalse ()).calls = [] ∧
     (execute_logic_async okT fnT vFalse ()).outcome = Except.ok ()) :=
  ⟨rfl, passthrough_no_call okT fnT vFalse () rfl⟩

/-- C4 (counterexample): a concrete artifact satisfying the invariant
`isReencoded = true → needsReencoding = false` before the handler runs
(trivially, since `isReencoded` is `false`) violates it after a successful
reencoding run: the handler sets `isReencoded` without clearing
`needsReencoding`. -/
theorem invariant_not_preserved_on_success :
    (vTrue.metadata.is_reencoded = true → vTrue.needs_reencoding = false) ∧
    ¬ ((execute_logic_async okT fnT vTrue ()).video.metadata.is_reencoded = true →
       (execute_logic_async okT fnT vTrue ()).video.needs_reencoding = false) := by
  refine ⟨fun h => absurd h (by decide), fun h => absurd (h rfl) (by decide)⟩

/-- C4 (amended): for every artifact satisfying the invariant
`isReencoded = true → needsReencoding = false` before the run, the
invariant still holds after a pass-through run (`needsReencoding = false`)
and after a run in which the transcoder fails; but after a successful
reencoding run the artifact has `isReencoded = true` and
`needsReencoding` still `true`, so the invariant does not survive that
branch. -/
theorem invariant_preservation_cases {K : Type} (reencode : Transcoder)
    (fn : FileNameByState) (v : Video) (k : K)
    (hinv : v.metadata.is_reencoded = true → v.needs_reencoding = false) :
    (v.needs_reencoding = false →
      ((execute_logic_async reencode fn v k).video.metadata.is_reencoded = true →
       (execute_logic_async reencode fn v k).video.needs_reencoding = false)) ∧
    (∀ e : TranscodeError, reencode v.media_url (fn v) = Except.error e →
      ((execute_logic_async reencode fn v k).video.metadata.is_reencoded = true →
       (execute_logic_async reencode fn v k).video.needs_reencoding = false)) ∧
    (∀ newRef : String, v.needs_reencoding = true →
      reencode v.media_url (fn v) = Except.ok newRef →
      (execute_logic_async reencode fn v k).video.metadata.is_reencoded = true ∧
      (execute_logic_async reencode fn v k).video.needs_reencoding = true) := by
  refine ⟨?_, ?_, ?_⟩
  · intro hneed
    rw [run_passthrough reencode fn v k hneed]
    exact fun _ => hneed
  · intro e herr
    cases hneed : v.needs_reencoding with
    | false =>
        rw [run_passthrough reencode fn v k hneed]
        exact fun _ => hneed
    | true =>
        rw [run_error reencode fn v k hneed e herr]
        exact hinv
  · intro newRef hneed hok
    rw [run_ok reencode fn v k hneed newRef hok]
    exact ⟨rfl, hneed⟩

/-- C4 (witness): the amended statement instantiated on a concrete
artifact and transcoder. -/
theorem invariant_preservation_cases_witness :
    (vTrue.metadata.is_reencoded = true → vTrue.needs_reencoding = false) ∧
    ((vTrue.needs_reencoding = false →
      ((execute_logic_async okT fnT vTrue ()).video.metadata.is_reencoded = true →
       (execute_logic_async okT fnT vTrue ()).video.needs_reencoding = false)) ∧
    (∀ e : TranscodeError, okT vTrue.media_url (fnT vTrue) = Except.error e →
      ((execute_logic_async okT fnT vTrue ()).video.metadata.is_reencoded = true →
       (execute_logic_async okT fnT vTrue ()).video.needs_reencoding = false)) ∧
    (∀ newRef : String, vTrue.needs_reencoding = true →
      okT vTrue.media_url (fnT vTrue) = Except.ok newRef →
      (execute_logic_async okT fnT vTrue ()).video.metadata.is_reencoded = true ∧
      (execute_logic_async okT fnT vTrue ()).video.needs_reencoding = true)) :=
  ⟨fun h => absurd h (by decide),
   invariant_preservation_cases okT fnT vTrue () (fun h => absurd h (by decide))⟩

/-- C5 (counterexample): on a concrete failing run the error surfaced to
the caller is exactly the transcoder's raw reason `"boom"`, which does not
mention the artifact id `"vid-1"` — there is no wrapping into a build
error naming the artifact. -/
theorem raw_error_not_wrapped :
    (execute_logic_async failT fnT vTrue ()).outcome = Except.error "boom" ∧
    mentions vTrue.id "boom" = false := by
  exact ⟨rfl, by decide⟩

/-- C5 (amended): when the external transcoder call fails, the handler
neither swallows nor wraps the failure: the very error raised by the
transcoder propagates unchanged to the caller. -/
theorem transcoder_error_propagates_raw {K : Type} (reencode : Transcoder)
    (fn : FileNameByState) (v : Video) (k : K)
    (hneed : v.needs_reencoding = true) (e : TranscodeError)
    (herr : reencode v.media_url (fn v) = Except.error e) :
    (execute_logic_async reencode fn v k).outcome = Except.error e := by
  rw [run_error reencode fn v k hneed e herr]

/-- C5 (witness): the propagation statement instantiated on a concrete run. -/
theorem transcoder_error_propagates_raw_witness :
    vTrue.needs_reencoding = true ∧
    failT vTrue.media_url (fnT vTrue) = Except.error "boom" ∧
    (execute_logic_async failT fnT vTrue ()).outcome = Except.error "boom" :=
  ⟨rfl, rfl, transcoder_error_propagates_raw failT fnT vTrue () rfl "boom" rfl⟩

/-- C6: for every artifact with `needsReencoding = true`, the handler
invokes the transcoder exactly once, with the pair (current media
reference, target name computed by `get_file_name_by_state`), and on
success assigns the returned reference to the media reference. -/
theorem transcoder_call_arguments {K : Type} (reencode : Transcoder)
    (fn : FileNameByState) (v : Video) (k : K)
    (hneed : v.needs_reencoding = true) :
    (execute_logic_async reencode fn v k).calls = [(v.media_url, fn v)] ∧
    ∀ newRef : String, reencode v.media_url (fn v) = Except.ok newRef →
      (execute_logic_async reencode fn v k).video.media_url = newRef := by
  constructor
  · cases hr : reencode v.media_url (fn v) with
    | error e => rw [run_error reencode fn v k hneed e hr]
    | ok newRef => rw [run_ok reencode fn v k hneed newRef hr]
  · intro newRef hok
    rw [run_ok reencode fn v k hneed newRef hok]

/-- C6 (witness): the call-argument statement instantiated on a concrete run. -/
theorem transcoder_call_arguments_witness :
    vTrue.needs_reencoding = true ∧
    ((execute_logic_async okT fnT vTrue ()).calls =
      [(vTrue.media_url, fnT vTrue)] ∧
    ∀ newRef : String, okT vTrue.media_url (fnT vTrue) = Except.ok newRef →
      (execute_logic_async okT fnT vTrue ()).video.media_url = newRef) :=
  ⟨rfl, transcoder_call_arguments okT fnT vTrue () rfl⟩

/-- C7 (counterexample): the synchronous execution of the reencoding
handler on a concrete artifact returns `none` (Python's `None`), not the
`(artifact, context)` pair the handler contract promises. -/
theorem sync_returns_none_not_pair :
    execute_logic vTrue () = none ∧
    execute_logic vTrue () ≠ some (vTrue, ()) := by
  exact ⟨rfl, by simp [execute_logic]⟩

/-- C7 (amended): `VideoBuildingHandlerReencoder._execute_logic`, the
synchronous entry point, is an unimplemented stub: for every artifact and
context it returns `none` and never the `(artifact, context)` pair, so the
spec's synchronous contract is not met by this handler. -/
theorem sync_execution_is_stub {K : Type} (v : Video) (k : K) :
    execute_logic v k = none ∧ execute_logic v k ≠ some (v, k) := by
  exact ⟨rfl, by simp [execute_logic]⟩

/-- C7 (witness): the stub statement instantiated on a concrete input. -/
theorem sync_execution_is_stub_witness :
    execute_logic vFalse () = none ∧
    execute_logic vFalse () ≠ some (vFalse, ()) :=
  sync_execution_is_stub vFalse ()

/-- C8: `upload_image` returns the blob's public URL exactly when the
bucket exists and both the upload and the publication succeed; a missing
bucket yields a not-found error with the gateway's message, a missing
local file and an access denial re-raise as the corresponding errors, and
no failing run ever returns a value. -/
theorem upload_image_contract (w : GcsWorld) (bn : String) :
    (w.bucket_exists = true → w.upload_from_filename = Except.ok () →
      w.make_public = Except.ok () →
      upload_image w bn = Except.ok w.public_url) ∧
    (w.bucket_exists = false →
      upload_image w bn =
        Except.error (GcsError.notFound ("Bucket " ++ bn ++ " not found."))) ∧
    (∀ msg : String, w.bucket_exists = true →
      w.upload_from_filename = Except.error (GcsError.fileNotFound msg) →
      upload_image w bn = Except.error (GcsError.fileNotFound msg)) ∧
    (∀ msg : String, w.bucket_exists = true →
      w.upload_from_filename = Except.error (GcsError.forbidden msg) →
      upload_image w bn = Except.error (GcsError.forbidden msg)) ∧
    (∀ u : String, upload_image w bn = Except.ok u →
      u = w.public_url ∧ w.bucket_exists = true ∧
      w.upload_from_filename = Except.ok () ∧ w.make_public = Except.ok ()) := by
  refine ⟨?_, ?_, ?_, ?_, ?_⟩
  · intro hb hu hm
    simp [upload_image, hb, hu, hm]
  · intro hb
    simp [upload_image, hb]
  · intro msg hb hu
    simp [upload_image, hb, hu]
  · intro msg hb hu
    simp [upload_image, hb, hu]
  · intro u hok
    cases hb : w.bucket_exists with
    | false => simp [upload_image, hb] at hok
    | true =>
        cases hu : w.upload_from_filename with
        | error e => simp [upload_image, hb, hu] at hok
        | ok _ =>
            cases hm : w.make_public with
            | error e => simp [upload_image, hb, hu, hm] at hok
            | ok _ =>
                simp [upload_image, hb, hu, hm] at hok
                exact ⟨hok.symm, rfl, rfl, rfl⟩

/-- C8 (witness): the contract instantiated on a world where every
collaborator call succeeds. -/
theorem upload_image_contract_witness :
    wOk.bucket_exists = true ∧
    wOk.upload_from_filename = Except.ok () ∧
    wOk.make_public = Except.ok () ∧
    upload_image wOk "bkt" = Except.ok wOk.public_url :=
  ⟨rfl, rfl, rfl, (upload_image_contract wOk "bkt").1 rfl rfl rfl⟩

/-- C9: `check_bucket_access` returns `true` when the bucket lookup
succeeds and returns `false` — rather than propagating the exception — on
each of the two expected failure modes, bucket-not-found and
access-forbidden, whatever their messages. -/
theorem check_bucket_access_total (msg : String) :
    check_bucket_access (Except.ok ()) = Except.ok true ∧
    check_bucket_access (Except.error (GcsError.notFound msg)) =
      Except.ok false ∧
    check_bucket_access (Except.error (GcsError.forbidden msg)) =
      Except.ok false :=
  ⟨rfl, rfl, rfl⟩

/-- C10: `init_telemetry` is idempotent: every call leaves the
initialized flag set; a call configures the provider and exporter exactly
when the flag was not yet set (so at most one configuration ever
happens); a second call is the identity on the state; and `get_tracer`'s
implicit call leaves the state at exactly `init_telemetry s`. -/
theorem init_telemetry_idempotent (s : TelemetryState) (name : Option String) :
    (init_telemetry s).telemetry_initialized = true ∧
    (init_telemetry s).configure_count =
      (if s.telemetry_initialized then s.configure_count
       else s.configure_count + 1) ∧
    init_telemetry (init_telemetry s) = init_telemetry s ∧
    (get_tracer (init_telemetry s) name).1 = init_telemetry s := by
  cases hs : s.telemetry_initialized <;>
    simp [init_telemetry, get_tracer, hs]

end Vikit
